import Mathlib

/-!
Shallow embedding of the text2cypher query engine
(routing, template matching, parameter extraction, validation, refinement)
for verification of its specification.

Sources embedded:
  src/src/utils/query_validator.py   (CypherQueryValidator)
  src/src/utils/neo4j_connector.py   (Neo4jConnector.execute_query)
  src/src/templates/base_templates.py (QueryTemplate, BaseTemplateLibrary, ParameterExtractor)
  src/src/templates/drug_repurposing.py (DrugRepurposingTemplates)
  src/src/agents/intent_classifier.py (IntentClassifier.find_matching_templates)
  src/src/agents/query_router.py     (QueryRouter.query, _execute_template, _execute_text2cypher)
  src/src/agents/text2cypher_agent.py (Text2CypherAgent.query)
  src/config/settings.py             (Settings defaults, QueryIntent)

External collaborators (the OpenAI completion service, the Neo4j driver, the
schema JSON file) are modelled as explicit function parameters / environment
records.  Python strings are modelled as Lean `String` with character-level
operations over `String.data`; Python `str.upper`/`str.lower` are modelled with
`Char.toUpper`/`Char.toLower` (ASCII behaviour, which is all the engine's
keywords need).
-/

namespace T2C

/-! ## Character-list string primitives (Python `in`, `upper`, `lower`, `replace`) -/

/-- Python `needle in hay` on strings: substring containment. -/
def listContainsSub (needle hay : List Char) : Bool :=
  hay.tails.any (fun t => needle.isPrefixOf t)

/-- Python `s.upper()` (ASCII). -/
def upperChars (cs : List Char) : List Char := cs.map Char.toUpper

/-- Python `s.lower()` (ASCII). -/
def lowerChars (cs : List Char) : List Char := cs.map Char.toLower

/-- Python `needle in hay` on `String`s. -/
def strContains (hay needle : String) : Bool :=
  listContainsSub needle.data hay.data

/-- Python `hay.upper().__contains__(needle)` for an already-uppercase needle. -/
def strContainsUpper (hay needle : String) : Bool :=
  listContainsSub needle.data (upperChars hay.data)

/-- Python `s.startswith(p)`. -/
def strStartsWith (s p : String) : Bool :=
  p.data.isPrefixOf s.data

/-- One step of Python `str.replace`: if `pat` is a prefix of `cs`, skip it and
emit `rep`; otherwise emit one char.  `fuel` bounds the recursion (the scan
consumes at least one character per step since `pat` is nonempty in all uses). -/
def replaceListAux (pat rep : List Char) : Nat → List Char → List Char
  | 0, cs => cs
  | _ + 1, [] => []
  | fuel + 1, c :: cs =>
    if pat ≠ [] ∧ pat.isPrefixOf (c :: cs) then
      rep ++ replaceListAux pat rep fuel ((c :: cs).drop pat.length)
    else
      c :: replaceListAux pat rep fuel cs

/-- Python `s.replace(pat, rep)` (all non-overlapping occurrences, left to right;
the engine only calls it with nonempty `pat`). -/
def strReplace (s pat rep : String) : String :=
  ⟨replaceListAux pat.data rep.data s.data.length s.data⟩

/-- Python `\w` character class (ASCII part). -/
def isWordChar (c : Char) : Bool :=
  c.isAlphanum || c = '_'

/-- Python whitespace for `str.strip` / `\s` (ASCII part). -/
def isPySpace (c : Char) : Bool :=
  c = ' ' || c = '\t' || c = '\n' || c = '\r' || c = '\x0b' || c = '\x0c'

/-- Python `s.strip()`. -/
def stripChars (cs : List Char) : List Char :=
  (cs.dropWhile isPySpace).reverse.dropWhile isPySpace |>.reverse

def strStrip (s : String) : String := ⟨stripChars s.data⟩

/-- Python `"; ".join(xs)` and friends. -/
def joinWith (sep : String) : List String → String
  | [] => ""
  | [x] => x
  | x :: y :: rest => x ++ sep ++ joinWith sep (y :: rest)

/-! ## Regex scanners used by the validator

`query_validator.py` extracts entities with `re.findall` over two patterns:
  node labels:        r':(\w+)'
  relationship types: r'\[(?:[\w]*):(\w+)(?:\*)?(?:\.\.\d+)?\]'
Both are modelled as left-to-right, non-overlapping scanners; `fuel` is the
length of the scanned text (each step consumes at least one character). -/

/-- Match `:(\w+)` at the head of `cs`: returns the captured word and the rest
after the match. -/
def matchNodeLabelAt : List Char → Option (List Char × List Char)
  | ':' :: rest =>
    let cap := rest.takeWhile isWordChar
    if cap = [] then none else some (cap, rest.drop cap.length)
  | _ => none

/-- `re.findall(r':(\w+)', query)`. -/
def findNodeLabelsAux : Nat → List Char → List (List Char)
  | 0, _ => []
  | _ + 1, [] => []
  | fuel + 1, c :: cs =>
    match matchNodeLabelAt (c :: cs) with
    | some (cap, rest) => cap :: findNodeLabelsAux fuel rest
    | none => findNodeLabelsAux fuel cs

def findNodeLabels (q : String) : List String :=
  (findNodeLabelsAux q.data.length q.data).map List.asString

/-- Match `\[(?:[\w]*):(\w+)(?:\*)?(?:\.\.\d+)?\]` at the head of `cs`. -/
def matchRelTypeAt : List Char → Option (List Char × List Char)
  | '[' :: rest =>
    let afterVar := rest.drop (rest.takeWhile isWordChar).length
    match afterVar with
    | ':' :: rest₂ =>
      let cap := rest₂.takeWhile isWordChar
      if cap = [] then none
      else
        let rest₃ := rest₂.drop cap.length
        let rest₄ := match rest₃ with | '*' :: r => r | r => r
        let rest₅ := match rest₄ with
          | '.' :: '.' :: r =>
            let ds := r.takeWhile Char.isDigit
            if ds = [] then rest₄ else r.drop ds.length
          | r => r
        match rest₅ with
        | ']' :: rest₆ => some (cap, rest₆)
        | _ => none
    | _ => none
  | _ => none

/-- `re.findall` for the relationship-type pattern: try a match at each
position, on success continue after the match, on failure advance one char. -/
def findRelTypesAux : Nat → List Char → List (List Char)
  | 0, _ => []
  | _ + 1, [] => []
  | fuel + 1, c :: cs =>
    match matchRelTypeAt (c :: cs) with
    | some (cap, rest) => cap :: findRelTypesAux fuel rest
    | none => findRelTypesAux fuel cs

def findRelTypes (q : String) : List String :=
  (findRelTypesAux q.data.length q.data).map List.asString

/-! ## Schema catalog (external collaborator: `BKBSchemaLoader`)

The schema JSON file is not part of the embedded core; the validator only
consumes `get_node_types()` and `get_relationship_types()`, modelled as two
string lists. -/

structure Schema where
  nodeTypes : List String
  relTypes : List String
deriving Repr

/-! ## CypherQueryValidator (src/src/utils/query_validator.py) -/

/-- `_validate_schema_entities` (lines 57-89).  Python iterates over
`set(node_labels)`, whose order is unspecified; modelled as first-occurrence
deduplication of the scan order. -/
def validateSchemaEntities (schema : Schema) (query : String) :
    Bool × List String :=
  let nodeLabels := findNodeLabels query
  let relTypes := findRelTypes query
  let nodeErrs := nodeLabels.dedup.filterMap fun label =>
    if label ∈ schema.nodeTypes then none
    else some ("ERROR: Unknown node label '" ++ label ++ "'")
  let relErrs := relTypes.dedup.filterMap fun rel =>
    if rel ∈ schema.relTypes then none
    else some ("ERROR: Unknown relationship type '" ++ rel ++ "'")
  let errors := nodeErrs ++ relErrs
  (errors.length = 0, errors)

def destructiveKeywords : List String :=
  ["DELETE", "DETACH DELETE", "REMOVE", "DROP",
   "CREATE INDEX", "DROP INDEX", "CREATE CONSTRAINT", "DROP CONSTRAINT"]

/-- `_check_security` (lines 91-133).  The source's condition
`"CREATE " in query_upper and "CREATE" not in ["CREATE INDEX"]` has a
constantly-true second conjunct (the string `"CREATE"` is not an element of
the list `["CREATE INDEX"]`), so only the containment test remains. -/
def checkSecurity (query : String) : Bool × List String :=
  let destructive := destructiveKeywords.filterMap fun kw =>
    if strContainsUpper query kw then
      some ("ERROR: Destructive operation '" ++ kw ++ "' not allowed")
    else none
  let createWarn :=
    if strContainsUpper query "CREATE " then
      ["WARNING: CREATE operation detected - ensure this is intentional"]
    else []
  let mergeWarn :=
    if strContainsUpper query "MERGE" then
      ["WARNING: MERGE operation detected - ensure this is intentional"]
    else []
  let errors := destructive ++ createWarn ++ mergeWarn
  ((errors.filter (fun e => strStartsWith e "ERROR")).length = 0, errors)

/-- `re.search(r'\*\d+\.\.', query)`: a `*`, one or more digits, then `..`. -/
def hasVarLengthPattern (query : String) : Bool :=
  query.data.tails.any fun t =>
    match t with
    | '*' :: rest =>
      let ds := rest.takeWhile Char.isDigit
      ds ≠ [] && ['.', '.'].isPrefixOf (rest.drop ds.length)
    | _ => false

/-- Python `query_upper.count("MATCH")` (non-overlapping occurrence count). -/
def countOccurrencesAux (pat : List Char) : Nat → List Char → Nat
  | 0, _ => 0
  | _ + 1, [] => 0
  | fuel + 1, c :: cs =>
    if pat.isPrefixOf (c :: cs) then
      1 + countOccurrencesAux pat fuel ((c :: cs).drop pat.length)
    else
      countOccurrencesAux pat fuel cs

def countUpperOccurrences (query : String) (pat : String) : Nat :=
  countOccurrencesAux pat.data (upperChars query.data).length (upperChars query.data)

def missingLimitWarning : String :=
  "WARNING: Query lacks LIMIT clause - may return large result set"

def cartesianWarning : String :=
  "WARNING: Multiple MATCH clauses without WHERE - possible cartesian product"

def varLengthWarning : String :=
  "WARNING: Variable-length pattern without WHERE clause may be expensive"

/-- `_check_performance` (lines 135-169). -/
def checkPerformance (query : String) : List String :=
  let w₁ :=
    if strContainsUpper query "MATCH" ∧ ¬strContainsUpper query "LIMIT" then
      if ¬strContainsUpper query "COUNT" ∧ ¬strContainsUpper query "RETURN COUNT" then
        [missingLimitWarning]
      else []
    else []
  let matchCount := countUpperOccurrences query "MATCH"
  let w₂ :=
    if matchCount > 1 ∧ ¬strContainsUpper query "WHERE" then
      [cartesianWarning]
    else []
  let w₃ :=
    if hasVarLengthPattern query ∧ ¬strContainsUpper query "WHERE" then
      [varLengthWarning]
    else []
  w₁ ++ w₂ ++ w₃

/-- The external syntax check (`Neo4jConnector.validate_cypher_syntax`,
an `EXPLAIN` round-trip to the database): `(is_valid, error_message)`. -/
def SyntaxCheck : Type := String → Bool × Option String

/-- The f-string `f"Syntax error: {syntax_error}"`; Python renders `None`
as the text `None`. -/
def syntaxErrorMessage (o : Option String) : String :=
  "Syntax error: " ++ (match o with | some m => m | none => "None")

/-- `validate_query` (lines 20-55): syntax check (short-circuit), schema
entities (accumulate), security (short-circuit on ERROR), performance
warnings; overall validity = no message starting with `"ERROR:"`. -/
def validateQuery (syntaxCheck : SyntaxCheck) (schema : Schema)
    (query : String) : Bool × List String :=
  let (isValidSyntax, syntaxError) := syntaxCheck query
  if ¬isValidSyntax then
    (false, [syntaxErrorMessage syntaxError])
  else
    let (schemaValid, schemaErrors) := validateSchemaEntities schema query
    let errors₁ := if ¬schemaValid then schemaErrors else []
    let (securityValid, securityErrors) := checkSecurity query
    if ¬securityValid then
      (false, errors₁ ++ securityErrors)
    else
      -- the source only extends `errors` with `security_errors` inside the
      -- `if not security_valid` branch, so security WARNINGs are dropped here
      let errors := errors₁ ++ checkPerformance query
      (errors.all (fun e => ¬strStartsWith e "ERROR:"), errors)

/-! ## ParameterExtractor.extract_threshold (base_templates.py lines 169-196)

The three patterns `confidence\s+(?:of\s+)?(\d+\.?\d*)%?`,
`threshold\s+(?:of\s+)?(\d+\.?\d*)` and `similarity\s+(?:of\s+)?(\d+\.?\d*)%?`
are tried in order with `re.IGNORECASE`; the first pattern with a match
anywhere in the text wins (`re.search`, leftmost occurrence).  Python floats
are modelled as exact rationals. -/

/-- Case-insensitive literal match at the head, returning the remainder. -/
def stripCI : List Char → List Char → Option (List Char)
  | [], cs => some cs
  | _ :: _, [] => none
  | p :: ps, c :: cs =>
    if c.toLower = p.toLower then stripCI ps cs else none

/-- Match `KW\s+(?:of\s+)?(\d+\.?\d*)` at the head of `cs`, returning the
captured group.  The greedy-optional `(?:of\s+)?` commits to the `of` branch
exactly when a digit follows it (otherwise the regex backtracks to the empty
branch, whose next character must itself be a digit).  The trailing `%?` of
two of the patterns can never affect the match or the capture. -/
def matchThresholdAt (kw : List Char) (cs : List Char) : Option (List Char) :=
  match stripCI kw cs with
  | none => none
  | some r₁ =>
    let ws := r₁.takeWhile isPySpace
    if ws = [] then none
    else
      let r₂ := r₁.drop ws.length
      let r₃ :=
        match stripCI ['o', 'f'] r₂ with
        | some ro =>
          let ws₂ := ro.takeWhile isPySpace
          if ws₂ ≠ [] ∧ ((ro.drop ws₂.length).headD ' ').isDigit = true then
            ro.drop ws₂.length
          else r₂
        | none => r₂
      let ds := r₃.takeWhile Char.isDigit
      if ds = [] then none
      else
        match r₃.drop ds.length with
        | '.' :: r₅ => some (ds ++ '.' :: r₅.takeWhile Char.isDigit)
        | _ => some ds

/-- `re.search`: leftmost position where the pattern matches. -/
def searchThreshold (kw : List Char) (text : List Char) : Option (List Char) :=
  text.tails.findSome? (matchThresholdAt kw)

def digitsToNat (cs : List Char) : Nat :=
  cs.foldl (fun n c => 10 * n + (c.toNat - '0'.toNat)) 0

/-- Python `float(...)` on a captured group of shape `\d+(\.\d*)?`. -/
def parseCapturedFloat (cs : List Char) : ℚ :=
  let intDigits := cs.takeWhile Char.isDigit
  match cs.drop intDigits.length with
  | '.' :: fr => (digitsToNat intDigits : ℚ) + (digitsToNat fr : ℚ) / (10 ^ fr.length)
  | _ => (digitsToNat intDigits : ℚ)

/-- The first capture over the three patterns, in source order. -/
def firstThresholdCapture (query : String) : Option (List Char) :=
  [String.data "confidence", String.data "threshold", String.data "similarity"
  ].findSome? (fun kw => searchThreshold kw query.data)

/-- `ParameterExtractor.extract_threshold`. -/
def extractThreshold (query : String) (dflt : ℚ) : ℚ :=
  match firstThresholdCapture query with
  | some cap =>
    let value := parseCapturedFloat cap
    if value > 1 then value / 100 else value
  | none => dflt

/-! ## QueryTemplate (base_templates.py lines 10-54) -/

/-- The runtime type objects `str` / `int` / `float` used as values of a
template's `parameters` dict. -/
inductive PKind where
  | pstr
  | pint
  | pfloat
deriving Repr, DecidableEq

structure QueryTemplate where
  name : String
  description : String
  cypher : String
  parameters : List (String × PKind)
  intent : String
  exampleQuestion : String
  tags : List String
deriving Repr, DecidableEq

/-- `QueryTemplate.matches_keywords` (lines 42-54). -/
def matchesKeywords (query : String) (keywords : List String) : Bool :=
  keywords.any fun kw => listContainsSub (lowerChars kw.data) (lowerChars query.data)

/-- Exceptions `format` can raise: the explicit `ValueError` for missing
parameters, and the `KeyError` / `ValueError` of Python `str.format`. -/
inductive FormatError where
  | missingParams (names : List String)
  | keyError (field : String)
  | valueError
deriving Repr, DecidableEq

/-- Python `str.format(**kwargs)` on the template text (no format specs or
autonumbering appear in this repository's templates, so a replacement field is
the text up to the next `\x7d`): `\x7b\x7b` and `\x7d\x7d` are literal braces,
`\x7b`field`\x7d` is replaced by the looked-up value, a missing key raises
`KeyError`, an unterminated field or a lone `\x7d` raises `ValueError`.
The second argument accumulates (reversed) field characters while inside a
replacement field. -/
def pyFormatAux (args : List (String × String)) :
    Option (List Char) → List Char → Except FormatError (List Char)
  | none, [] => .ok []
  | none, c :: rest =>
    if c = '{' then
      match rest with
      | '{' :: rest₂ => (fun out => '{' :: out) <$> pyFormatAux args none rest₂
      | r => pyFormatAux args (some []) r
    else if c = '}' then
      match rest with
      | '}' :: rest₂ => (fun out => '}' :: out) <$> pyFormatAux args none rest₂
      | _ => .error .valueError
    else (fun out => c :: out) <$> pyFormatAux args none rest
  | some _, [] => .error .valueError
  | some acc, c :: rest =>
    if c = '}' then
      let field := acc.reverse.asString
      match args.find? (fun kv => kv.1 = field) with
      | some kv => (fun out => kv.2.data ++ out) <$> pyFormatAux args none rest
      | none => .error (.keyError field)
    else pyFormatAux args (some (c :: acc)) rest
termination_by _ fmt => fmt.length
decreasing_by all_goals (simp only [List.length_cons]; omega)

/-- `QueryTemplate.format` (lines 22-40): validate that every declared
parameter name is supplied (Python computes the difference of two key sets,
whose iteration order is unspecified; modelled in declaration order), then
`self.cypher.format(**kwargs)`. -/
def formatTemplate (t : QueryTemplate) (kwargs : List (String × String)) :
    Except FormatError String :=
  let missing := (t.parameters.map Prod.fst).filter
    (fun k => ¬ (kwargs.map Prod.fst).contains k)
  if missing ≠ [] then .error (.missingParams missing)
  else (fun out => out.asString) <$> pyFormatAux kwargs none t.cypher.data

/-- Format-text scan deciding that every brace is doubled (no replacement
fields at all). -/
def noReplacementFields : List Char → Bool
  | [] => true
  | c :: rest =>
    if c = '{' then
      match rest with
      | '{' :: rest₂ => noReplacementFields rest₂
      | _ => false
    else if c = '}' then
      match rest with
      | '}' :: rest₂ => noReplacementFields rest₂
      | _ => false
    else noReplacementFields rest

/-- Collapse doubled braces (the output of `str.format` on a text with no
replacement fields). -/
def collapseDoubledBraces : List Char → List Char
  | [] => []
  | c :: rest =>
    if c = '{' then
      match rest with
      | '{' :: rest₂ => '{' :: collapseDoubledBraces rest₂
      | r => c :: collapseDoubledBraces r
    else if c = '}' then
      match rest with
      | '}' :: rest₂ => '}' :: collapseDoubledBraces rest₂
      | r => c :: collapseDoubledBraces r
    else c :: collapseDoubledBraces rest

/-- An unresolved placeholder token: a substring `\x7b`w`\x7d` where `w` is a
(possibly empty) run of word characters. -/
def hasPlaceholderToken : List Char → Bool
  | [] => false
  | c :: rest =>
    (if c = '{' then
      match rest.drop (rest.takeWhile isWordChar).length with
      | '}' :: _ => true
      | _ => false
    else false) || hasPlaceholderToken rest

/-! ## Template matching (base_templates.py lines 80-104,
intent_classifier.py lines 84-107) -/

/-- The `if intent and template.intent != intent: continue` guard; Python
treats `None` and the empty string as falsy. -/
def intentFilterSkips (intent : Option String) (t : QueryTemplate) : Bool :=
  match intent with
  | none => false
  | some i => i ≠ "" && t.intent ≠ i

/-- `BaseTemplateLibrary.find_matching_templates`. -/
def findMatchingTemplates : List QueryTemplate → String → Option String →
    List QueryTemplate
  | [], _, _ => []
  | t :: rest, q, intent =>
    if intentFilterSkips intent t then findMatchingTemplates rest q intent
    else if matchesKeywords q t.tags then t :: findMatchingTemplates rest q intent
    else findMatchingTemplates rest q intent

/-- `IntentClassifier.find_matching_templates` with a pre-classified intent:
concatenates the per-library match lists in library order. -/
def classifierFindMatching (libraries : List (List QueryTemplate))
    (q : String) (intent : Option String) : List QueryTemplate :=
  (libraries.map (fun lib => findMatchingTemplates lib q intent)).flatten

/-! ## DrugRepurposingTemplates (src/src/templates/drug_repurposing.py) -/

/-- Template `similar_drugs_by_target` of `DrugRepurposingTemplates._build_templates`. -/
def similar_drugs_by_targetTemplate : QueryTemplate where
  name := "similar_drugs_by_target"
  description := "Find drugs that target similar genes/proteins as a reference drug"
  cypher := "\n                MATCH (drug1:Drug \x7b\x7bname: $drug_name\x7d\x7d)-[:TARGETS]->(target:Gene)\n                MATCH (drug2:Drug)-[:TARGETS]->(target)\n                WHERE drug1 <> drug2\n                WITH drug2, collect(DISTINCT target.symbol) as shared_targets, count(DISTINCT target) as target_count\n                WHERE target_count >= $min_shared_targets\n                RETURN drug2.name as drug_name,\n                       drug2.indication as current_indication,\n                       shared_targets,\n                       target_count,\n                       drug2.mechanism as mechanism\n                ORDER BY target_count DESC\n                LIMIT $limit\n                "
  parameters := [("drug_name", PKind.pstr), ("min_shared_targets", PKind.pint), ("limit", PKind.pint)]
  intent := "drug_repurposing"
  exampleQuestion := "Find drugs with similar targets to Imatinib"
  tags := ["similar drugs", "shared targets", "drug repurposing", "similar mechanism"]

/-- Template `drugs_for_disease_targets` of `DrugRepurposingTemplates._build_templates`. -/
def drugs_for_disease_targetsTemplate : QueryTemplate where
  name := "drugs_for_disease_targets"
  description := "Find existing drugs that target genes associated with a disease"
  cypher := "\n                MATCH (disease:Disease \x7b\x7bname: $disease_name\x7d\x7d)<-[:ASSOCIATED_WITH|CAUSES]-(gene:Gene)\n                MATCH (drug:Drug)-[:TARGETS]->(gene)\n                WITH drug, disease, collect(DISTINCT gene.symbol) as targeted_genes, count(DISTINCT gene) as gene_count\n                OPTIONAL MATCH (drug)-[:TREATS]->(current_disease:Disease)\n                RETURN drug.name as drug_name,\n                       drug.indication as current_indication,\n                       collect(DISTINCT current_disease.name) as current_diseases,\n                       targeted_genes,\n                       gene_count,\n                       drug.mechanism as mechanism\n                ORDER BY gene_count DESC\n                LIMIT $limit\n                "
  parameters := [("disease_name", PKind.pstr), ("limit", PKind.pint)]
  intent := "drug_repurposing"
  exampleQuestion := "Find drugs that could be repurposed for Alzheimer's disease"
  tags := ["drug repurposing", "new indication", "disease treatment", "repurpose"]

/-- Template `drugs_targeting_pathway` of `DrugRepurposingTemplates._build_templates`. -/
def drugs_targeting_pathwayTemplate : QueryTemplate where
  name := "drugs_targeting_pathway"
  description := "Find drugs that target genes in a specific biological pathway"
  cypher := "\n                MATCH (pathway:Pathway \x7b\x7bname: $pathway_name\x7d\x7d)<-[:PARTICIPATES_IN]-(gene:Gene)\n                MATCH (drug:Drug)-[:TARGETS|ACTIVATES|INHIBITS]->(gene)\n                WITH drug, pathway, collect(DISTINCT gene.symbol) as pathway_genes, count(DISTINCT gene) as gene_count\n                OPTIONAL MATCH (drug)-[r:TARGETS|ACTIVATES|INHIBITS]->(gene)\n                RETURN drug.name as drug_name,\n                       drug.indication as current_indication,\n                       pathway_genes,\n                       gene_count,\n                       collect(DISTINCT type(r)) as interaction_types,\n                       drug.mechanism as mechanism\n                ORDER BY gene_count DESC\n                LIMIT $limit\n                "
  parameters := [("pathway_name", PKind.pstr), ("limit", PKind.pint)]
  intent := "drug_repurposing"
  exampleQuestion := "Find drugs that target the PI3K/AKT signaling pathway"
  tags := ["pathway", "pathway targeting", "drug repurposing", "signaling"]

/-- Template `drugs_with_inverse_mechanism` of `DrugRepurposingTemplates._build_templates`. -/
def drugs_with_inverse_mechanismTemplate : QueryTemplate where
  name := "drugs_with_inverse_mechanism"
  description := "Find drugs that have opposite effect on disease-associated genes"
  cypher := "\n                MATCH (disease:Disease \x7b\x7bname: $disease_name\x7d\x7d)<-[:ASSOCIATED_WITH]-(gene:Gene)\n                MATCH (gene)<-[causal:UPREGULATES|DOWNREGULATES]-(disease_entity)\n                WITH gene, type(causal) as disease_effect\n                MATCH (drug:Drug)-[drug_effect:UPREGULATES|DOWNREGULATES|ACTIVATES|INHIBITS]->(gene)\n                WHERE (disease_effect = 'UPREGULATES' AND type(drug_effect) IN ['DOWNREGULATES', 'INHIBITS'])\n                   OR (disease_effect = 'DOWNREGULATES' AND type(drug_effect) IN ['UPREGULATES', 'ACTIVATES'])\n                WITH drug, collect(DISTINCT \x7b\x7bgene: gene.symbol, disease_effect: disease_effect, drug_effect: type(drug_effect)\x7d\x7d) as gene_effects\n                RETURN drug.name as drug_name,\n                       drug.indication as current_indication,\n                       gene_effects,\n                       size(gene_effects) as corrective_targets,\n                       drug.mechanism as mechanism\n                ORDER BY corrective_targets DESC\n                LIMIT $limit\n                "
  parameters := [("disease_name", PKind.pstr), ("limit", PKind.pint)]
  intent := "drug_repurposing"
  exampleQuestion := "Find drugs that could correct the molecular changes in cancer"
  tags := ["opposite mechanism", "inverse effect", "corrective therapy", "repurposing"]

/-- Template `similar_compounds` of `DrugRepurposingTemplates._build_templates`. -/
def similar_compoundsTemplate : QueryTemplate where
  name := "similar_compounds"
  description := "Find drugs with similar chemical structure to a reference compound"
  cypher := "\n                MATCH (compound1:Compound \x7b\x7bname: $compound_name\x7d\x7d)\n                MATCH (compound2:Compound)\n                WHERE compound1 <> compound2\n                  AND compound2.molecular_weight IS NOT NULL\n                  AND abs(compound1.molecular_weight - compound2.molecular_weight) < $weight_tolerance\n                WITH compound2,\n                     abs(compound1.molecular_weight - compound2.molecular_weight) as weight_diff\n                OPTIONAL MATCH (compound2)<-[:SIMILAR_TO]-(drug:Drug)\n                OPTIONAL MATCH (drug)-[:TREATS]->(disease:Disease)\n                RETURN compound2.name as compound_name,\n                       compound2.molecular_weight as molecular_weight,\n                       weight_diff,\n                       collect(DISTINCT drug.name) as related_drugs,\n                       collect(DISTINCT disease.name) as indications\n                ORDER BY weight_diff ASC\n                LIMIT $limit\n                "
  parameters := [("compound_name", PKind.pstr), ("weight_tolerance", PKind.pfloat), ("limit", PKind.pint)]
  intent := "compound_similarity"
  exampleQuestion := "Find compounds similar to Metformin"
  tags := ["compound similarity", "chemical structure", "similar compounds", "molecular weight"]

/-- The registration-ordered template list built by
`DrugRepurposingTemplates._build_templates` (drug_repurposing.py). -/
def drugRepurposingTemplates : List QueryTemplate :=
  [similar_drugs_by_targetTemplate, drugs_for_disease_targetsTemplate, drugs_targeting_pathwayTemplate, drugs_with_inverse_mechanismTemplate, similar_compoundsTemplate]

/-! ## CypherQueryValidator.refine_query (query_validator.py lines 224-269) -/

/-- Case-sensitive literal match at the head, returning the remainder. -/
def stripLit (pat cs : List Char) : Option (List Char) :=
  if pat.isPrefixOf cs then some (cs.drop pat.length) else none

/-- Match `Unknown node label '(\w+)'` at the head of `cs` (no IGNORECASE),
returning the captured word. -/
def matchUnknownLabelAt (cs : List Char) : Option (List Char) :=
  match stripLit (String.data "Unknown node label '") cs with
  | none => none
  | some r =>
    let w := r.takeWhile isWordChar
    if w = [] then none
    else
      match r.drop w.length with
      | '\'' :: _ => some w
      | _ => none

/-- `re.search(r"Unknown node label '(\w+)'", error_message)`. -/
def searchUnknownLabel (msg : String) : Option String :=
  (msg.data.tails.findSome? matchUnknownLabelAt).map List.asString

/-- Python `s.endswith(";")`. -/
def endsWithSemicolon (s : String) : Bool :=
  [';'].isSuffixOf s.data

/-- Python `s[:-1]`. -/
def dropLastChar (s : String) : String := ⟨s.data.dropLast⟩

/-- `refine_query`: the unknown-label rule (first catalog label that contains
or is contained in the unknown token, case-insensitively, substituted for it
and returned immediately), else the append-LIMIT rule, else `None` when the
text did not change. -/
def refineQuery (validLabels : List String) (query : String)
    (errorMessage : Option String) : Option String :=
  let labelSubstituted : Option String :=
    match errorMessage with
    | some em =>
      -- `if error_message:` — the empty string is falsy
      if em ≠ "" then
        match searchUnknownLabel em with
        | some unknownLabel =>
          match validLabels.find? (fun validLabel =>
              listContainsSub (lowerChars unknownLabel.data) (lowerChars validLabel.data) ||
              listContainsSub (lowerChars validLabel.data) (lowerChars unknownLabel.data)) with
          | some validLabel =>
            some (strReplace query (":" ++ unknownLabel) (":" ++ validLabel))
          | none => none
        | none => none
      else none
    | none => none
  match labelSubstituted with
  | some refined => some refined  -- early `return refined_query` (line 258)
  | none =>
    let refined :=
      if strContainsUpper query "MATCH" ∧ ¬strContainsUpper query "LIMIT" then
        if ¬endsWithSemicolon (strStrip query) then
          strStrip query ++ " LIMIT 100"
        else
          strStrip (dropLastChar (strStrip query)) ++ " LIMIT 100;"
      else query
    if refined ≠ query then some refined else none

/-! ## Settings defaults (config/settings.py lines 23-27) -/

def defaultMaxIterations : Nat := 3

def defaultQueryTimeout : Nat := 30

/-! ## Neo4jConnector.execute_query (neo4j_connector.py lines 81-109) -/

/-- The arguments of the `session.run(...)` driver call issued by
`execute_query`; `timeoutArg` is the timeout argument handed to the driver
call, `none` when the call passes no timeout at all. -/
structure SessionRunArgs where
  query : String
  parameters : List (String × String)
  timeoutArg : Option Nat
deriving Repr, DecidableEq

/-- `execute_query` computes `timeout = timeout or settings.query_timeout`
(Python `or`: `None` and `0` both fall back to the setting) and then issues
`session.run(query, parameters or {})`.  Returns the computed effective
timeout together with the driver call made. -/
def executeQueryCall (queryTimeoutSetting : Nat) (query : String)
    (parameters : Option (List (String × String))) (timeout : Option Nat) :
    Nat × SessionRunArgs :=
  let effectiveTimeout :=
    match timeout with
    | some t => if t ≠ 0 then t else queryTimeoutSetting
    | none => queryTimeoutSetting
  (effectiveTimeout,
   { query := query, parameters := parameters.getD [], timeoutArg := none })

/-! ## Text2CypherAgent.query (text2cypher_agent.py lines 133-202)

The chain invocation of each attempt (`self.cypher_chain.invoke`) is an
external collaborator: modelled as a function from the attempt index to
either an exception message or the extracted components. -/

/-- Components extracted from a successful chain invocation
(`intermediate_steps` query/context and the final `result`). -/
structure ChainSuccess where
  cypherQuery : String
  results : List String
  answer : String
deriving Repr, DecidableEq

/-- The per-request result dictionary built by the agent and the router
(Python dicts with varying key sets; absent keys are `none`). -/
structure RouterResult where
  success : Bool
  question : Option String := none
  intent : Option String := none
  queryType : Option String := none
  templateName : Option String := none
  cypherQuery : Option String := none
  parameters : Option (List (String × String)) := none
  results : Option (List String) := none
  resultCount : Option Nat := none
  answer : Option String := none
  error : Option String := none
  iterations : Option Nat := none
deriving Repr, DecidableEq

/-- The body of the agent's `for iteration in range(max_iterations)` loop,
entered at index `iteration`: a successful attempt returns immediately with
`iterations = iteration + 1`; a failing attempt continues when refinement is
enabled and iterations remain, else returns the failure with the last error. -/
def agentAttemptLoop (attempt : Nat → Except String ChainSuccess)
    (question : String) (refineOnError : Bool) (maxIterations : Nat)
    (iteration : Nat) : RouterResult :=
  match attempt iteration with
  | .ok d =>
    { success := true, question := some question,
      cypherQuery := some d.cypherQuery, results := some d.results,
      answer := some d.answer, iterations := some (iteration + 1) }
  | .error e =>
    if iteration < maxIterations - 1 ∧ refineOnError then
      agentAttemptLoop attempt question refineOnError maxIterations (iteration + 1)
    else
      { success := false, question := some question, error := some e,
        iterations := some (iteration + 1) }
termination_by maxIterations - iteration
decreasing_by omega

/-- `Text2CypherAgent.query`: `max_iterations` from settings, forced to 1
when `refine_on_error` is false.  The trailing `return` after the loop is
reachable only when the range is empty (`max_iterations = 0`). -/
def agentQuery (attempt : Nat → Except String ChainSuccess)
    (settingsMaxIterations : Nat) (question : String)
    (refineOnError : Bool) : RouterResult :=
  let maxIterations := if refineOnError then settingsMaxIterations else 1
  if maxIterations = 0 then
    { success := false, question := some question,
      error := some "Max iterations reached", iterations := some maxIterations }
  else
    agentAttemptLoop attempt question refineOnError maxIterations 0

/-! ## QueryRouter (query_router.py lines 55-195) -/

/-- `str(e)` of the exceptions `QueryTemplate.format` can raise. -/
def formatErrorMessage : FormatError → String
  | .missingParams names => "Missing required parameters: " ++ joinWith ", " names
  | .keyError field => "'" ++ field ++ "'"
  | .valueError => "Single '\x7d' encountered in format string"

/-- The router's collaborators: the completion service (classification and
parameter extraction), the template registry, the validator's external
syntax check and schema catalog, the database execution call, the result
synthesizer and the generation chain used by the text2cypher agent. -/
structure RouterEnv where
  classify : String → String
  libraries : List (List QueryTemplate)
  extractParams : String → List (String × PKind) → Option (List (String × String))
  syntaxCheck : SyntaxCheck
  schema : Schema
  executeQuery : String → List (String × String) → Except String (List String)
  synthesize : String → String → List String → String
  attempt : Nat → Except String ChainSuccess
  maxIterations : Nat

/-- `QueryRouter._execute_text2cypher`: runs the agent with
`refine_on_error=True` and, on success, adds intent, query type and result
count to the same dictionary. -/
def execText2cypher (env : RouterEnv) (question intent : String) : RouterResult :=
  let result := agentQuery env.attempt env.maxIterations question true
  if result.success then
    { result with
      intent := some intent, queryType := some "text2cypher",
      resultCount := some (result.results.getD []).length }
  else result

/-- `QueryRouter._execute_template`.  `_extract_template_parameters` catches
its own exceptions and returns `None`; `if not parameters` also treats an
empty extracted dict as a failure.  A `format` exception and an execution
exception are caught by the surrounding handler, which adds
`query_type = "template"`; the extraction-failure and validation-failure
returns carry no query type. -/
def execTemplate (env : RouterEnv) (question : String) (t : QueryTemplate) :
    RouterResult :=
  let failedExtraction : RouterResult :=
    { success := false, error := some "Parameter extraction failed" }
  match env.extractParams question t.parameters with
  | none => failedExtraction
  | some ps =>
    if ps = [] then failedExtraction
    else
      match formatTemplate t ps with
      | .error e =>
        { success := false, error := some (formatErrorMessage e),
          queryType := some "template" }
      | .ok cypherQuery =>
        let (isValid, validationErrors) :=
          validateQuery env.syntaxCheck env.schema cypherQuery
        if ¬isValid then
          { success := false, error := some (joinWith "; " validationErrors) }
        else
          match env.executeQuery cypherQuery ps with
          | .error e =>
            { success := false, error := some e, queryType := some "template" }
          | .ok results =>
            { success := true, question := some question,
              intent := some t.intent, queryType := some "template",
              templateName := some t.name, cypherQuery := some cypherQuery,
              parameters := some ps, results := some results,
              resultCount := some results.length,
              answer := some (env.synthesize question cypherQuery results) }

/-- `QueryRouter.query`: classify, then (unless forced) try the first
matching template and fall back to text2cypher whenever the template result
is not a success. -/
def routerQuery (env : RouterEnv) (question : String)
    (forceText2cypher : Bool) : RouterResult :=
  let intent := env.classify question
  if forceText2cypher then
    execText2cypher env question intent
  else
    match classifierFindMatching env.libraries question (some intent) with
    | [] => execText2cypher env question intent
    | t :: _ =>
      let templateResult := execTemplate env question t
      if templateResult.success then templateResult
      else execText2cypher env question intent

/-! ## Spec-side characterizations of `refine_query` (for comparison with the
spec's description of the repair rules) -/

/-- The unknown-label repair rule as the spec words it: if the error message
names an unknown label and some catalog label case-insensitively contains or
is contained in the unknown token, the first such label is substituted for
every occurrence of `:unknown` in the query. -/
def labelRepairResult (validLabels : List String) (errorMessage : Option String)
    (query : String) : Option String :=
  match errorMessage with
  | some em =>
    if em ≠ "" then
      match searchUnknownLabel em with
      | some unknownLabel =>
        match validLabels.find? (fun validLabel =>
            listContainsSub (lowerChars unknownLabel.data) (lowerChars validLabel.data) ||
            listContainsSub (lowerChars validLabel.data) (lowerChars unknownLabel.data)) with
        | some validLabel =>
          some (strReplace query (":" ++ unknownLabel) (":" ++ validLabel))
        | none => none
      | none => none
    else none
  | none => none

/-- The append-LIMIT repair rule as the spec words it: when the query has a
MATCH but no LIMIT, append a default `LIMIT 100` (respecting a trailing
semicolon); otherwise leave the text unchanged. -/
def limitRepairResult (query : String) : String :=
  if strContainsUpper query "MATCH" ∧ ¬strContainsUpper query "LIMIT" then
    if ¬endsWithSemicolon (strStrip query) then
      strStrip query ++ " LIMIT 100"
    else
      strStrip (dropLastChar (strStrip query)) ++ " LIMIT 100;"
  else query

/-! ## A concrete collaborator environment (used to exhibit router behaviour
on explicit inputs) -/

/-- A concrete environment: classification always answers drug_repurposing,
parameter extraction always fails, the database refuses connections, and the
generation chain fails every attempt. -/
def sampleRouterEnv : RouterEnv where
  classify := fun _ => "drug_repurposing"
  libraries := [drugRepurposingTemplates]
  extractParams := fun _ _ => none
  syntaxCheck := fun _ => (true, none)
  schema := { nodeTypes := [], relTypes := [] }
  executeQuery := fun _ _ => .error "connection refused"
  synthesize := fun _ _ _ => ""
  attempt := fun _ => .error "generation failed"
  maxIterations := 3

/-! # Helper lemmas -/

theorem listContainsSub_spec {n h : List Char} :
    listContainsSub n h = true ↔ n <:+: h := by
  simp only [listContainsSub, List.any_eq_true, List.mem_tails,
    List.isPrefixOf_iff_prefix]
  constructor
  · rintro ⟨t, ht, hp⟩; exact List.infix_iff_prefix_suffix.mpr ⟨t, hp, ht⟩
  · intro hi; rcases List.infix_iff_prefix_suffix.mp hi with ⟨t, hp, ht⟩
    exact ⟨t, ht, hp⟩

theorem noRF_cons_other (c : Char) (r : List Char) (h1 : ¬c = '{')
    (h2 : ¬c = '}') :
    noReplacementFields (c :: r) = noReplacementFields r := by
  rw [noReplacementFields.eq_def]
  dsimp only
  rw [if_neg h1, if_neg h2]

theorem noRF_open_single (r : List Char)
    (hne : ∀ r₂ : List Char, r = '{' :: r₂ → False) :
    noReplacementFields ('{' :: r) = false := by
  rcases r with _ | ⟨c2, r2⟩
  · rfl
  · rw [noReplacementFields.eq_def]
    dsimp only
    rw [if_pos rfl]
    split
    · rename_i rest₂ heq; exact (hne rest₂ heq).elim
    · rfl

theorem noRF_close_single (r : List Char)
    (hne : ∀ r₂ : List Char, r = '}' :: r₂ → False) :
    noReplacementFields ('}' :: r) = false := by
  rcases r with _ | ⟨c2, r2⟩
  · rfl
  · rw [noReplacementFields.eq_def]
    dsimp only
    rw [if_neg (by decide : ¬ ('}' = '{')), if_pos rfl]
    split
    · rename_i rest₂ heq; exact (hne rest₂ heq).elim
    · rfl

theorem collapse_cons_other (c : Char) (r : List Char) (h1 : ¬c = '{')
    (h2 : ¬c = '}') :
    collapseDoubledBraces (c :: r) = c :: collapseDoubledBraces r := by
  rw [collapseDoubledBraces.eq_def]
  dsimp only
  rw [if_neg h1, if_neg h2]

theorem pyFormatAux_open2 (args : List (String × String)) (r : List Char) :
    pyFormatAux args none ('{' :: '{' :: r) =
      (fun out => '{' :: out) <$> pyFormatAux args none r := by
  rw [pyFormatAux.eq_def]
  simp

theorem pyFormatAux_close2 (args : List (String × String)) (r : List Char) :
    pyFormatAux args none ('}' :: '}' :: r) =
      (fun out => '}' :: out) <$> pyFormatAux args none r := by
  rw [pyFormatAux.eq_def]
  simp

theorem pyFormatAux_cons_other (args : List (String × String)) (c : Char)
    (r : List Char) (h1 : ¬c = '{') (h2 : ¬c = '}') :
    pyFormatAux args none (c :: r) =
      (fun out => c :: out) <$> pyFormatAux args none r := by
  rw [pyFormatAux.eq_def]
  dsimp only
  rw [if_neg h1, if_neg h2]

/-- `str.format` on a text whose braces are all doubled substitutes nothing:
it succeeds for every argument map and returns the text with doubled braces
collapsed. -/
theorem pyFormatAux_noFields (args : List (String × String)) (fmt : List Char)
    (h : noReplacementFields fmt = true) :
    pyFormatAux args none fmt = .ok (collapseDoubledBraces fmt) := by
  induction fmt using noReplacementFields.induct with
  | case1 => rw [pyFormatAux]; rfl
  | case2 rest₂ ih =>
    have h' : noReplacementFields rest₂ = true := h
    rw [pyFormatAux_open2, ih h']
    rfl
  | case3 r hne =>
    rw [noRF_open_single r hne] at h
    exact absurd h (by simp)
  | case4 rest₂ hc ih =>
    have h' : noReplacementFields rest₂ = true := h
    rw [pyFormatAux_close2, ih h']
    rfl
  | case5 rest hne hc =>
    rw [noRF_close_single rest hne] at h
    exact absurd h (by simp)
  | case6 c rest h1 h2 ih =>
    rw [noRF_cons_other c rest h1 h2] at h
    rw [pyFormatAux_cons_other args c rest h1 h2, ih h]
    rw [collapse_cons_other c rest h1 h2]
    rfl

/-- Omitting declared parameters makes `format` fail with the missing-parameter
error naming exactly the omitted names (for every template). -/
theorem formatTemplate_missing_gen (t : QueryTemplate) (kwargs : List (String × String))
    (hx : ∃ p ∈ t.parameters.map Prod.fst, (kwargs.map Prod.fst).contains p = false) :
    ∃ missing, formatTemplate t kwargs = .error (.missingParams missing) ∧
      missing ≠ [] ∧
      ∀ p, p ∈ missing ↔ p ∈ t.parameters.map Prod.fst ∧ (kwargs.map Prod.fst).contains p = false := by
  rcases hx with ⟨p, hp, hnc⟩
  have hmem : p ∈ (t.parameters.map Prod.fst).filter
      (fun k => ¬ (kwargs.map Prod.fst).contains k) := by
    rw [List.mem_filter]
    refine ⟨hp, ?_⟩
    simp only [hnc]
    rfl
  have hne : (t.parameters.map Prod.fst).filter
      (fun k => ¬ (kwargs.map Prod.fst).contains k) ≠ [] := by
    intro he
    rw [he] at hmem
    exact absurd hmem (List.not_mem_nil p)
  refine ⟨_, ?_, hne, ?_⟩
  · rw [formatTemplate, if_pos hne]
  · intro q
    rw [List.mem_filter]
    constructor
    · rintro ⟨hq, hdec⟩
      refine ⟨hq, ?_⟩
      by_contra hco
      have : (List.map Prod.fst kwargs).contains q = true := by
        cases hcq : (List.map Prod.fst kwargs).contains q
        · exact absurd hcq hco
        · rfl
      rw [this] at hdec
      exact absurd hdec (by decide)
    · rintro ⟨hq, hnq⟩
      refine ⟨hq, ?_⟩
      simp only [hnq]
      rfl

/-- With every declared parameter supplied, `format` succeeds on any template
whose text has no replacement field, returning the text with doubled braces
collapsed. -/
theorem formatTemplate_success_gen (t : QueryTemplate) (kwargs : List (String × String))
    (hnoRF : noReplacementFields t.cypher.data = true)
    (hall : ∀ p ∈ t.parameters.map Prod.fst, (kwargs.map Prod.fst).contains p = true) :
    formatTemplate t kwargs = .ok (collapseDoubledBraces t.cypher.data).asString := by
  have hnil : (t.parameters.map Prod.fst).filter
      (fun k => ¬ (kwargs.map Prod.fst).contains k) = [] := by
    rw [List.filter_eq_nil_iff]
    intro a ha
    simp only [hall a ha]
    decide
  rw [formatTemplate, if_neg (by rw [hnil]; simp),
    pyFormatAux_noFields kwargs t.cypher.data hnoRF]
  rfl

/-! # Claim theorems -/

set_option maxRecDepth 8000

/-- Claim C4: for every template of the drug-repurposing library, calling
`format` with a parameter map that omits at least one declared parameter name
fails with a MissingParameter error naming exactly the omitted parameter(s)
(and produces no query text), while calling `format` with a complete parameter
map succeeds and yields text containing no unresolved placeholder token. -/
theorem template_format_claim_C4 :
    ∀ t ∈ drugRepurposingTemplates,
      (∀ kwargs : List (String × String),
        (∃ p ∈ t.parameters.map Prod.fst, (kwargs.map Prod.fst).contains p = false) →
        ∃ missing, formatTemplate t kwargs = .error (.missingParams missing) ∧
          missing ≠ [] ∧
          ∀ p, p ∈ missing ↔
            p ∈ t.parameters.map Prod.fst ∧ (kwargs.map Prod.fst).contains p = false)
      ∧ (∀ kwargs : List (String × String),
          (∀ p ∈ t.parameters.map Prod.fst, (kwargs.map Prod.fst).contains p = true) →
          ∃ out, formatTemplate t kwargs = .ok out ∧
            hasPlaceholderToken out.data = false) := by
  intro t ht
  refine ⟨fun kwargs hx => formatTemplate_missing_gen t kwargs hx,
    fun kwargs hall => ?_⟩
  refine ⟨(collapseDoubledBraces t.cypher.data).asString,
    formatTemplate_success_gen t kwargs ?_ hall, ?_⟩
  · fin_cases ht <;> decide
  · fin_cases ht <;> decide

/-- Witness for C4 at an explicit template and maps: omitting
`min_shared_targets` yields the missing-parameter failure; the complete map
formats successfully with no unresolved placeholder. -/
theorem template_format_claim_C4_witness :
    (∃ missing, formatTemplate similar_drugs_by_targetTemplate
        [("drug_name", "Imatinib"), ("limit", "10")] =
          .error (.missingParams missing) ∧ missing ≠ [] ∧
        ∀ p, p ∈ missing ↔
          p ∈ similar_drugs_by_targetTemplate.parameters.map Prod.fst ∧
          ((([("drug_name", "Imatinib"), ("limit", "10")] :
              List (String × String))).map Prod.fst).contains p = false)
    ∧ (∃ out, formatTemplate similar_drugs_by_targetTemplate
        [("drug_name", "Imatinib"), ("min_shared_targets", "2"), ("limit", "10")] =
          .ok out ∧ hasPlaceholderToken out.data = false) := by
  have h := template_format_claim_C4 similar_drugs_by_targetTemplate
    (List.mem_cons_self _ _)
  exact ⟨h.1 _ ⟨"min_shared_targets", by decide, by decide⟩,
    h.2 _ (by decide)⟩

/-- Template matching is a filter over the registration-ordered list: the
loop with `continue` keeps exactly the non-skipped, keyword-matching
templates in order. -/
theorem findMatchingTemplates_eq_filter (ts : List QueryTemplate) (q : String)
    (intent : Option String) :
    findMatchingTemplates ts q intent =
      ts.filter (fun t => !intentFilterSkips intent t && matchesKeywords q t.tags) := by
  induction ts with
  | nil => rfl
  | cons t rest ih =>
    rw [findMatchingTemplates]
    by_cases hs : intentFilterSkips intent t = true
    · rw [if_pos hs, ih, List.filter_cons]
      simp [hs]
    · rw [if_neg hs]
      by_cases hm : matchesKeywords q t.tags = true
      · rw [if_pos hm, ih, List.filter_cons]
        simp [hs, hm]
      · rw [if_neg hm, ih, List.filter_cons]
        simp only [Bool.not_eq_true] at hs hm
        simp [hs, hm]

/-- With a non-empty intent the filter is exact intent equality plus a
keyword match. -/
theorem findMatchingTemplates_intent_filter (ts : List QueryTemplate)
    (q : String) (i : String) (hi : i ≠ "") :
    findMatchingTemplates ts q (some i) =
      ts.filter (fun t => t.intent = i && matchesKeywords q t.tags) := by
  rw [findMatchingTemplates_eq_filter]
  apply List.filter_congr
  intro t _
  simp [intentFilterSkips, hi]

/-- Every template returned under a non-empty intent carries that intent. -/
theorem mem_findMatching_intent {ts : List QueryTemplate} {q i : String}
    {t : QueryTemplate} (hi : i ≠ "")
    (ht : t ∈ findMatchingTemplates ts q (some i)) : t.intent = i := by
  rw [findMatchingTemplates_intent_filter ts q i hi] at ht
  have := (List.mem_filter.mp ht).2
  rw [Bool.and_eq_true] at this
  exact of_decide_eq_true this.1

/-- Claim C7: `find_matching_templates` returns exactly the templates whose
intent equals the given intent (no intent filter when the intent is absent)
and at least one of whose keyword tags occurs as a case-insensitive substring
of the question, in registration order; in particular, for intent
drug_repurposing and a question containing "similar drugs", the result is
non-empty, its first element is the library's first drug-repurposing template,
and no template registered under a different intent appears. -/
theorem find_matching_templates_claim_C7 :
    (∀ (ts : List QueryTemplate) (q i : String), i ≠ "" →
      findMatchingTemplates ts q (some i) =
        ts.filter (fun t => t.intent = i && matchesKeywords q t.tags))
    ∧ (∀ (ts : List QueryTemplate) (q : String),
      findMatchingTemplates ts q none =
        ts.filter (fun t => matchesKeywords q t.tags))
    ∧ (∀ (otherLibs : List (List QueryTemplate)) (q : String),
        listContainsSub (String.data "similar drugs") (lowerChars q.data) = true →
        (classifierFindMatching (drugRepurposingTemplates :: otherLibs) q
            (some "drug_repurposing")).head? = some similar_drugs_by_targetTemplate
        ∧ classifierFindMatching (drugRepurposingTemplates :: otherLibs) q
            (some "drug_repurposing") ≠ []
        ∧ ∀ t ∈ classifierFindMatching (drugRepurposingTemplates :: otherLibs) q
            (some "drug_repurposing"), t.intent = "drug_repurposing") := by
  refine ⟨findMatchingTemplates_intent_filter, ?_, ?_⟩
  · intro ts q
    rw [findMatchingTemplates_eq_filter]
    apply List.filter_congr
    intro t _
    simp [intentFilterSkips]
  · intro otherLibs q hq
    have hmatch1 : matchesKeywords q similar_drugs_by_targetTemplate.tags = true := by
      rw [matchesKeywords]
      apply List.any_eq_true.mpr
      refine ⟨"similar drugs", by decide, ?_⟩
      rw [show lowerChars (String.data "similar drugs") = String.data "similar drugs" from by decide]
      exact hq
    have hhead : findMatchingTemplates drugRepurposingTemplates q (some "drug_repurposing") =
        similar_drugs_by_targetTemplate ::
          (drugRepurposingTemplates.tail.filter
            (fun t => t.intent = "drug_repurposing" && matchesKeywords q t.tags)) := by
      rw [findMatchingTemplates_intent_filter _ _ _ (by decide)]
      rw [show drugRepurposingTemplates =
        similar_drugs_by_targetTemplate :: drugRepurposingTemplates.tail from rfl]
      rw [List.filter_cons]
      rw [if_pos (by rw [hmatch1]; decide)]
      rfl
    have hrescons : classifierFindMatching (drugRepurposingTemplates :: otherLibs) q
        (some "drug_repurposing") =
        findMatchingTemplates drugRepurposingTemplates q (some "drug_repurposing") ++
          (otherLibs.map
            (fun lib => findMatchingTemplates lib q (some "drug_repurposing"))).flatten := by
      rw [classifierFindMatching]
      simp [List.map_cons]
    refine ⟨?_, ?_, ?_⟩
    · rw [hrescons, hhead]
      rfl
    · rw [hrescons, hhead]
      simp
    · intro t ht
      rw [hrescons] at ht
      rcases List.mem_append.mp ht with hl | hr
      · exact mem_findMatching_intent (by decide) hl
      · rcases List.mem_flatten.mp hr with ⟨l, hlmem, htl⟩
        rcases List.mem_map.mp hlmem with ⟨lib, _, rfl⟩
        exact mem_findMatching_intent (by decide) htl

/-- Witness for C7 at an explicit question: the classifier-level match over
the drug-repurposing library alone puts the first drug-repurposing template
first. -/
theorem find_matching_templates_claim_C7_witness :
    (classifierFindMatching [drugRepurposingTemplates]
        "What are similar drugs to Imatinib?" (some "drug_repurposing")).head? =
      some similar_drugs_by_targetTemplate := by
  exact (find_matching_templates_claim_C7.2.2 []
    "What are similar drugs to Imatinib?" (by decide)).1


/-- A nonempty filter: some element of the list satisfies the predicate, so
the filtered length is not zero. -/
theorem filter_length_ne_zero_of_mem {α} {p : α → Bool} {l : List α} {a : α}
    (ha : a ∈ l) (hpa : p a = true) : ¬(l.filter p).length = 0 := by
  intro hlen
  rw [List.length_eq_zero] at hlen
  have hmf := List.mem_filter.mpr ⟨ha, hpa⟩
  rw [hlen] at hmf
  exact absurd hmf (List.not_mem_nil a)

/-- A query containing DELETE (case-insensitively) gets the DestructiveOperation
diagnostic from the security check. -/
theorem checkSecurity_delete_mem (q : String)
    (h : strContainsUpper q "DELETE" = true) :
    "ERROR: Destructive operation 'DELETE' not allowed" ∈ (checkSecurity q).2 := by
  rw [checkSecurity]
  dsimp only
  apply List.mem_append_left
  apply List.mem_append_left
  apply List.mem_filterMap.mpr
  refine ⟨"DELETE", by decide, ?_⟩
  rw [h]
  rfl

/-- The security check reports unsafe on a query containing DELETE. -/
theorem checkSecurity_invalid_of_delete (q : String)
    (h : strContainsUpper q "DELETE" = true) :
    (checkSecurity q).1 = false := by
  have hmem := checkSecurity_delete_mem q h
  rw [checkSecurity] at hmem ⊢
  dsimp only at hmem ⊢
  exact decide_eq_false (filter_length_ne_zero_of_mem hmem (by decide))

/-- Whatever the syntax check and schema say, the full validation of a query
containing DELETE is invalid. -/
theorem validateQuery_invalid_of_delete (syntaxCheck : SyntaxCheck)
    (schema : Schema) (q : String)
    (h : strContainsUpper q "DELETE" = true) :
    (validateQuery syntaxCheck schema q).1 = false := by
  rw [validateQuery]
  rcases hsc : syntaxCheck q with ⟨b, o⟩
  cases b
  · simp
  · dsimp only
    simp only [Bool.not_true, decide_False]
    rcases hcs : checkSecurity q with ⟨sv, se⟩
    have hsv : sv = false := by
      have := checkSecurity_invalid_of_delete q h
      rw [hcs] at this
      exact this
    subst hsv
    simp

/-- Claim C2: every query string containing the substring "DELETE" in any
letter case, anywhere in the text, receives a DestructiveOperation ERROR
diagnostic from the security check and an overall `is_valid = false` from the
validator, regardless of the rest of the query's content. -/
theorem validator_delete_claim_C2 (syntaxCheck : SyntaxCheck) (schema : Schema)
    (q : String) (h : strContainsUpper q "DELETE" = true) :
    "ERROR: Destructive operation 'DELETE' not allowed" ∈ (checkSecurity q).2
    ∧ (validateQuery syntaxCheck schema q).1 = false :=
  ⟨checkSecurity_delete_mem q h, validateQuery_invalid_of_delete syntaxCheck schema q h⟩

/-- Witness for C2 at an explicit mixed-case query. -/
theorem validator_delete_claim_C2_witness :
    "ERROR: Destructive operation 'DELETE' not allowed" ∈
      (checkSecurity "MATCH (n) dElEtE n").2
    ∧ (validateQuery (fun _ => (true, none)) ⟨["Drug"], ["TARGETS"]⟩
        "MATCH (n) dElEtE n").1 = false :=
  validator_delete_claim_C2 (fun _ => (true, none)) ⟨["Drug"], ["TARGETS"]⟩
    "MATCH (n) dElEtE n" (by decide)

/-- Claim C10: when the syntax check fails, `validate_query` returns
`is_valid = false` with exactly one message, prefixed "Syntax error:" rather
than "ERROR:" or "WARNING:", so the invalid result carries no ERROR-tagged
diagnostic; later validation stages do not run (the result is independent of
the schema catalog). -/
theorem validator_syntax_failure_claim_C10 (syntaxCheck : SyntaxCheck) (schema : Schema)
    (q : String) (msg : Option String) (h : syntaxCheck q = (false, msg)) :
    validateQuery syntaxCheck schema q = (false, [syntaxErrorMessage msg])
    ∧ strStartsWith (syntaxErrorMessage msg) "Syntax error:" = true
    ∧ strStartsWith (syntaxErrorMessage msg) "ERROR:" = false
    ∧ strStartsWith (syntaxErrorMessage msg) "WARNING:" = false
    ∧ (validateQuery syntaxCheck schema q).2.all
        (fun e => !strStartsWith e "ERROR:") = true
    ∧ (∀ schema₂ : Schema,
        validateQuery syntaxCheck schema₂ q = validateQuery syntaxCheck schema q) := by
  have hval : ∀ schema₂ : Schema,
      validateQuery syntaxCheck schema₂ q = (false, [syntaxErrorMessage msg]) := by
    intro schema₂
    rw [validateQuery, h]
    simp
  refine ⟨hval schema, rfl, rfl, rfl, ?_,
    fun schema₂ => (hval schema₂).trans (hval schema).symm⟩
  rw [hval schema]
  rfl

/-- Witness for C10 at an explicit failing syntax check. -/
theorem validator_syntax_failure_claim_C10_witness :
    validateQuery (fun _ => (false, some "Invalid input"))
      ⟨["Drug"], ["TARGETS"]⟩ "MATCH (n RETURN n" =
      (false, ["Syntax error: Invalid input"]) :=
  (validator_syntax_failure_claim_C10 (fun _ => (false, some "Invalid input"))
    ⟨["Drug"], ["TARGETS"]⟩ "MATCH (n RETURN n" (some "Invalid input") rfl).1


/-- Claim C8: `extract_threshold` returns the first number captured by the
confidence/threshold/similarity patterns, divided by 100 when the captured
number is greater than 1, and the default when no pattern matches; in
particular it maps "confidence of 85%" to 0.85 and "threshold of 0.6" to 0.6
(default 0.7). -/
theorem extract_threshold_claim_C8 :
    extractThreshold "confidence of 85%" (7/10) = 17/20
    ∧ extractThreshold "threshold of 0.6" (7/10) = 3/5
    ∧ (∀ (q : String) (dflt : ℚ), firstThresholdCapture q = none →
        extractThreshold q dflt = dflt)
    ∧ (∀ (q : String) (dflt : ℚ) (cap : List Char),
        firstThresholdCapture q = some cap →
        extractThreshold q dflt =
          (if parseCapturedFloat cap > 1 then parseCapturedFloat cap / 100
           else parseCapturedFloat cap)) := by
  refine ⟨?_, ?_, ?_, ?_⟩
  · rw [extractThreshold,
      show firstThresholdCapture "confidence of 85%" = some ['8','5'] from by decide]
    dsimp only
    rw [show parseCapturedFloat ['8','5'] = 85 from by
      rw [parseCapturedFloat]
      rw [show List.takeWhile Char.isDigit ['8','5'] = ['8','5'] from rfl]
      norm_num [digitsToNat, show '8'.toNat - '0'.toNat = 8 from rfl,
        show '5'.toNat - '0'.toNat = 5 from rfl]]
    norm_num
  · rw [extractThreshold,
      show firstThresholdCapture "threshold of 0.6" = some ['0','.','6'] from by decide]
    dsimp only
    rw [show parseCapturedFloat ['0','.','6'] = 3/5 from by
      rw [parseCapturedFloat]
      rw [show List.takeWhile Char.isDigit ['0','.','6'] = ['0'] from rfl]
      norm_num [digitsToNat, show '0'.toNat - '0'.toNat = 0 from rfl,
        show '6'.toNat - '0'.toNat = 6 from rfl]]
    norm_num
  · intro q dflt hnone
    rw [extractThreshold, hnone]
  · intro q dflt cap hcap
    rw [extractThreshold, hcap]

/-- Witness for C8: on a text with no threshold pattern the default is
returned. -/
theorem extract_threshold_claim_C8_witness :
    extractThreshold "find drugs for pain" (7/10) = 7/10 :=
  extract_threshold_claim_C8.2.2.1 "find drugs for pain" (7/10) (by decide)

/-- Claim C9 (code bug): `execute_query` computes the effective timeout
(caller-supplied or the configured default) but the driver call it issues
(`session.run(query, parameters or {})`) receives no timeout argument at all,
for every input — the computed timeout is dead.  The second and third
conjuncts evaluate the failing input `execute_query(q, None, timeout=5)`:
the effective timeout is 5 yet the driver call carries none. -/
theorem execute_query_timeout_claim_C9 :
    (∀ (setting : Nat) (q : String) (ps : Option (List (String × String)))
        (t : Option Nat),
      ((executeQueryCall setting q ps t).2).timeoutArg = none)
    ∧ (executeQueryCall defaultQueryTimeout "MATCH (n) RETURN n LIMIT 5" none
        (some 5)).1 = 5
    ∧ ((executeQueryCall defaultQueryTimeout "MATCH (n) RETURN n LIMIT 5" none
        (some 5)).2).timeoutArg = none := by
  exact ⟨fun _ _ _ _ => rfl, rfl, rfl⟩

/-- Counterexample to C6 as stated: with catalog ["Drug"], query
"MATCH (n) RETURN n LIMIT 5" and error message "Unknown node label 'Drugz'",
the unknown-label rule fires ("Drug" is contained in "drugz"
case-insensitively) but the substitution of ":Drugz" changes nothing, and
`refine_query` returns the input itself rather than nothing — contradicting
"returns either nothing or a repaired query that differs from the input". -/
theorem refine_query_counterexample_C6 :
    refineQuery ["Drug"] "MATCH (n) RETURN n LIMIT 5"
        (some "Unknown node label 'Drugz'") =
      some "MATCH (n) RETURN n LIMIT 5" := by decide

/-- Claim C6 (amended): when the error message names an unknown label and
some catalog label case-insensitively contains or is contained in it, the
query with ":unknown" replaced by the first such label is returned — even when
that text equals the input; otherwise, when LIMIT is missing, a default LIMIT
is appended and the repaired query is returned only if it differs from the
input (nothing otherwise), so only the unknown-label path may return a text
equal to the input. -/
theorem refine_query_amended_claim_C6 :
    (∀ (labels : List String) (q : String) (emOpt : Option String) (r : String),
      labelRepairResult labels emOpt q = some r →
      refineQuery labels q emOpt = some r)
    ∧ (∀ (labels : List String) (q : String) (emOpt : Option String),
      labelRepairResult labels emOpt q = none →
      refineQuery labels q emOpt =
        (if limitRepairResult q ≠ q then some (limitRepairResult q) else none))
    ∧ (∀ (labels : List String) (q : String) (emOpt : Option String) (r : String),
      labelRepairResult labels emOpt q = none →
      refineQuery labels q emOpt = some r → r ≠ q) := by
  have hlab : ∀ (labels : List String) (q : String) (emOpt : Option String),
      (match emOpt with
        | some em =>
          if em ≠ "" then
            match searchUnknownLabel em with
            | some unknownLabel =>
              match labels.find? (fun validLabel =>
                  listContainsSub (lowerChars unknownLabel.data) (lowerChars validLabel.data) ||
                  listContainsSub (lowerChars validLabel.data) (lowerChars unknownLabel.data)) with
              | some validLabel =>
                some (strReplace q (":" ++ unknownLabel) (":" ++ validLabel))
              | none => none
            | none => none
          else none
        | none => none) = labelRepairResult labels emOpt q := by
    intro labels q emOpt
    rw [labelRepairResult.eq_def]
  refine ⟨?_, ?_, ?_⟩
  · intro labels q emOpt r hl
    rw [refineQuery.eq_def, hlab, hl]
  · intro labels q emOpt hl
    rw [refineQuery.eq_def, hlab, hl]
    dsimp only
    rw [limitRepairResult.eq_def]
  · intro labels q emOpt r hl hr
    rw [refineQuery.eq_def, hlab, hl] at hr
    dsimp only at hr
    generalize (if strContainsUpper q "MATCH" = true ∧ ¬strContainsUpper q "LIMIT" = true then
        if ¬endsWithSemicolon (strStrip q) = true then strStrip q ++ " LIMIT 100"
        else strStrip (dropLastChar (strStrip q)) ++ " LIMIT 100;"
      else q) = x at hr
    split at hr
    · rename_i he
      intro hrq
      exact he ((Option.some.inj hr).trans hrq)
    · exact absurd hr (by simp)

/-- Witness for C6 (amended) on the LIMIT-append path at an explicit input. -/
theorem refine_query_amended_claim_C6_witness :
    refineQuery [] "MATCH (n) RETURN n" none = some "MATCH (n) RETURN n LIMIT 100" := by
  have h := refine_query_amended_claim_C6.2.1 [] "MATCH (n) RETURN n" none (by decide)
  rw [h]
  decide


/-- When every remaining attempt raises, the agent loop walks to the final
iteration and returns the failure with the last error and the full iteration
count. -/
theorem agentAttemptLoop_all_fail (attempt : Nat → Except String ChainSuccess)
    (question : String) (err : Nat → String) (m : Nat) :
    ∀ k, k < m → (∀ i, k ≤ i → i < m → attempt i = .error (err i)) →
    agentAttemptLoop attempt question true m k =
      { success := false, question := some question, error := some (err (m - 1)),
        iterations := some m } := by
  have main : ∀ fuel k, m - k = fuel → k < m →
      (∀ i, k ≤ i → i < m → attempt i = .error (err i)) →
      agentAttemptLoop attempt question true m k =
        { success := false, question := some question, error := some (err (m - 1)),
          iterations := some m } := by
    intro fuel
    induction fuel with
    | zero => intro k hf hk hall; omega
    | succ n ih =>
      intro k hf hk hall
      rw [agentAttemptLoop]
      rw [hall k le_rfl hk]
      dsimp only
      by_cases hlast : k < m - 1
      · rw [if_pos ⟨hlast, rfl⟩]
        exact ih (k + 1) (by omega) (by omega) (fun i h1 h2 => hall i (by omega) h2)
      · rw [if_neg (by intro hcon; exact hlast hcon.1)]
        have hkm : k = m - 1 := by omega
        rw [hkm]
        rw [show m - 1 + 1 = m from by omega]
  exact fun k hk hall => main (m - k) k rfl hk hall

/-- When attempts fail up to index `j` and attempt `j` succeeds, the loop
returns immediately at `j` with `iterations = j + 1`. -/
theorem agentAttemptLoop_first_success (attempt : Nat → Except String ChainSuccess)
    (question : String) (m j : Nat) (d : ChainSuccess) :
    ∀ k, k ≤ j → j < m →
    (∀ i, k ≤ i → i < j → ∃ e, attempt i = .error e) →
    attempt j = .ok d →
    agentAttemptLoop attempt question true m k =
      { success := true, question := some question,
        cypherQuery := some d.cypherQuery, results := some d.results,
        answer := some d.answer, iterations := some (j + 1) } := by
  have main : ∀ fuel k, j - k = fuel → k ≤ j → j < m →
      (∀ i, k ≤ i → i < j → ∃ e, attempt i = .error e) →
      attempt j = .ok d →
      agentAttemptLoop attempt question true m k =
        { success := true, question := some question,
          cypherQuery := some d.cypherQuery, results := some d.results,
          answer := some d.answer, iterations := some (j + 1) } := by
    intro fuel
    induction fuel with
    | zero =>
      intro k hf hkj hjm hfail hok
      have hkjeq : k = j := by omega
      subst hkjeq
      rw [agentAttemptLoop, hok]
    | succ n ih =>
      intro k hf hkj hjm hfail hok
      have hkj' : k < j := by omega
      rcases hfail k le_rfl hkj' with ⟨e, he⟩
      rw [agentAttemptLoop, he]
      dsimp only
      rw [if_pos (⟨by omega, rfl⟩ : _ ∧ true = true)]
      exact ih (k + 1) (by omega) (by omega) hjm
        (fun i h1 h2 => hfail i (by omega) h2) hok
  exact fun k hkj hjm hfail hok => main (j - k) k rfl hkj hjm hfail hok

/-- Claim C3: the generative path is a bounded loop of `max_iterations`
attempts — configuration default 3, exactly one attempt when refinement is
disabled; when the generation collaborator raises on every attempt with
`max_iterations = 3` the path terminates with `success = false`,
iteration-count 3 and the last error; when an attempt succeeds after earlier
failures it returns immediately with the number of iterations used. -/
theorem text2cypher_retry_claim_C3 :
    defaultMaxIterations = 3
    ∧ (∀ (attempt : Nat → Except String ChainSuccess) (q : String) (n : Nat),
        (agentQuery attempt n q false).iterations = some 1)
    ∧ (∀ (attempt : Nat → Except String ChainSuccess) (q : String)
        (err : Nat → String),
        (∀ i, i < 3 → attempt i = .error (err i)) →
        agentQuery attempt 3 q true =
          { success := false, question := some q, error := some (err 2),
            iterations := some 3 })
    ∧ (∀ (attempt : Nat → Except String ChainSuccess) (q : String) (n j : Nat)
        (d : ChainSuccess), j < n →
        (∀ i, i < j → ∃ e, attempt i = .error e) → attempt j = .ok d →
        agentQuery attempt n q true =
          { success := true, question := some q,
            cypherQuery := some d.cypherQuery, results := some d.results,
            answer := some d.answer, iterations := some (j + 1) }) := by
  refine ⟨rfl, ?_, ?_, ?_⟩
  · intro attempt q n
    rw [agentQuery]
    rw [if_neg (by simp)]
    rw [agentAttemptLoop]
    cases hatt : attempt 0 with
    | ok d => rfl
    | error e =>
      dsimp only
      rw [if_neg (by simp)]
  · intro attempt q err hall
    rw [agentQuery]
    rw [if_neg (by decide)]
    exact agentAttemptLoop_all_fail attempt q err 3 0 (by omega)
      (fun i _ h2 => hall i h2)
  · intro attempt q n j d hjn hfail hok
    rw [agentQuery]
    rw [if_neg (by simp only [reduceIte]; omega)]
    exact agentAttemptLoop_first_success attempt q n j d 0 (by omega) hjn
      (fun i _ h2 => hfail i h2) hok

/-- Witness for C3 with a collaborator that raises on every attempt. -/
theorem text2cypher_retry_claim_C3_witness :
    agentQuery (fun _ => .error "invoke failed") 3 "list drugs" true =
      { success := false, question := some "list drugs",
        error := some "invoke failed", iterations := some 3 } :=
  text2cypher_retry_claim_C3.2.2.1 (fun _ => .error "invoke failed")
    "list drugs" (fun _ => "invoke failed") (fun _ _ => rfl)


/-- Containment of an uppercase needle transfers along needle-infix. -/
theorem containsUpper_mono {q : String} {a b : String}
    (hab : a.data <:+: b.data) (hb : strContainsUpper q b = true) :
    strContainsUpper q a = true := by
  rw [strContainsUpper] at hb ⊢
  rw [listContainsSub_spec] at hb ⊢
  exact hab.trans hb

/-- When every scanned label and relationship type is in the schema catalog,
the schema-entity check passes with no diagnostics. -/
theorem validateSchemaEntities_ok (schema : Schema) (q : String)
    (hlabels : ∀ l ∈ findNodeLabels q, l ∈ schema.nodeTypes)
    (hrels : ∀ r ∈ findRelTypes q, r ∈ schema.relTypes) :
    validateSchemaEntities schema q = (true, []) := by
  rw [validateSchemaEntities]
  have h1 : (findNodeLabels q).dedup.filterMap (fun label =>
      if label ∈ schema.nodeTypes then none
      else some ("ERROR: Unknown node label '" ++ label ++ "'")) = [] := by
    rw [List.filterMap_eq_nil_iff]
    intro a ha
    rw [if_pos (hlabels a (List.mem_dedup.mp ha))]
  have h2 : (findRelTypes q).dedup.filterMap (fun rel =>
      if rel ∈ schema.relTypes then none
      else some ("ERROR: Unknown relationship type '" ++ rel ++ "'")) = [] := by
    rw [List.filterMap_eq_nil_iff]
    intro a ha
    rw [if_pos (hrels a (List.mem_dedup.mp ha))]
  rw [h1, h2]
  rfl

/-- On a query containing no destructive keyword, the security check passes
and emits only CREATE/MERGE warnings, none of which is ERROR-tagged or equal
to the MissingLimit warning. -/
theorem checkSecurity_read_query (q : String)
    (hread : ∀ kw ∈ destructiveKeywords, strContainsUpper q kw = false) :
    (checkSecurity q).1 = true ∧
    ∀ e ∈ (checkSecurity q).2, strStartsWith e "ERROR" = false ∧
      e ≠ missingLimitWarning := by
  have hd : destructiveKeywords.filterMap (fun kw =>
      if strContainsUpper q kw = true then
        some ("ERROR: Destructive operation '" ++ kw ++ "' not allowed")
      else none) = [] := by
    rw [List.filterMap_eq_nil_iff]
    intro kw hkw
    rw [if_neg (by rw [hread kw hkw]; simp)]
  rw [checkSecurity]
  dsimp only
  rw [hd]
  constructor
  · by_cases hc1 : strContainsUpper q "CREATE " = true
    · by_cases hc2 : strContainsUpper q "MERGE" = true
      · rw [if_pos hc1, if_pos hc2]; decide
      · rw [if_pos hc1, if_neg hc2]; decide
    · by_cases hc2 : strContainsUpper q "MERGE" = true
      · rw [if_neg hc1, if_pos hc2]; decide
      · rw [if_neg hc1, if_neg hc2]; decide
  · intro e he
    rw [List.nil_append] at he
    rcases List.mem_append.mp he with h1 | h2
    · revert h1
      split
      · intro h1
        rcases List.mem_singleton.mp h1 with rfl
        decide
      · intro h1
        exact absurd h1 (List.not_mem_nil e)
    · revert h2
      split
      · intro h2
        rcases List.mem_singleton.mp h2 with rfl
        decide
      · intro h2
        exact absurd h2 (List.not_mem_nil e)

/-- On a MATCH query without LIMIT and without COUNT the performance stage
emits the MissingLimit warning first, followed only by the (conditional)
cartesian-product and variable-length warnings. -/
theorem checkPerformance_missing_limit (q : String)
    (hmatch : strContainsUpper q "MATCH" = true)
    (hlimit : strContainsUpper q "LIMIT" = false)
    (hcount : strContainsUpper q "COUNT" = false) :
    checkPerformance q = missingLimitWarning ::
      ((if countUpperOccurrences q "MATCH" > 1 ∧ ¬strContainsUpper q "WHERE" = true
        then [cartesianWarning] else []) ++
       (if hasVarLengthPattern q = true ∧ ¬strContainsUpper q "WHERE" = true
        then [varLengthWarning] else [])) := by
  have hrc : strContainsUpper q "RETURN COUNT" = false := by
    cases hx : strContainsUpper q "RETURN COUNT"
    · rfl
    · have := containsUpper_mono (by decide :
        (String.data "COUNT") <:+: (String.data "RETURN COUNT")) hx
      rw [hcount] at this
      exact absurd this (by simp)
  rw [checkPerformance]
  rw [if_pos ⟨hmatch, by rw [hlimit]; simp⟩]
  rw [if_pos ⟨by rw [hcount]; simp, by rw [hrc]; simp⟩]
  rw [List.cons_append]
  rfl

/-- Claim C5 (amended): for every syntactically valid read query (no
destructive keyword) that contains a MATCH clause but no LIMIT and no COUNT,
and whose scanned node labels and relationship types all appear in the schema
catalogs, the validator reports overall-valid and its diagnostics contain the
MissingLimit WARNING exactly once. -/
theorem validator_missing_limit_amended_C5 (syntaxCheck : SyntaxCheck)
    (schema : Schema) (q : String) (o : Option String)
    (hsyn : syntaxCheck q = (true, o))
    (hmatch : strContainsUpper q "MATCH" = true)
    (hlimit : strContainsUpper q "LIMIT" = false)
    (hcount : strContainsUpper q "COUNT" = false)
    (hread : ∀ kw ∈ destructiveKeywords, strContainsUpper q kw = false)
    (hlabels : ∀ l ∈ findNodeLabels q, l ∈ schema.nodeTypes)
    (hrels : ∀ r ∈ findRelTypes q, r ∈ schema.relTypes) :
    (validateQuery syntaxCheck schema q).1 = true
    ∧ (validateQuery syntaxCheck schema q).2.count missingLimitWarning = 1 := by
  rcases checkSecurity_read_query q hread with ⟨hsv, hse⟩
  rcases hcs : checkSecurity q with ⟨sv, se⟩
  rw [hcs] at hsv hse
  dsimp only at hsv hse
  subst hsv
  have hval : validateQuery syntaxCheck schema q =
      ((missingLimitWarning ::
        ((if countUpperOccurrences q "MATCH" > 1 ∧ ¬strContainsUpper q "WHERE" = true
          then [cartesianWarning] else []) ++
         (if hasVarLengthPattern q = true ∧ ¬strContainsUpper q "WHERE" = true
          then [varLengthWarning] else []))).all (fun e => ¬strStartsWith e "ERROR:"),
        missingLimitWarning ::
        ((if countUpperOccurrences q "MATCH" > 1 ∧ ¬strContainsUpper q "WHERE" = true
          then [cartesianWarning] else []) ++
         (if hasVarLengthPattern q = true ∧ ¬strContainsUpper q "WHERE" = true
          then [varLengthWarning] else []))) := by
    rw [validateQuery, hsyn]
    dsimp only
    rw [if_neg (by simp)]
    rw [validateSchemaEntities_ok schema q hlabels hrels]
    dsimp only
    rw [hcs]
    dsimp only
    rw [if_neg (by simp)]
    rw [if_neg (by simp)]
    rw [checkPerformance_missing_limit q hmatch hlimit hcount]
    rw [List.nil_append]
  have hallW : ((if countUpperOccurrences q "MATCH" > 1 ∧ ¬strContainsUpper q "WHERE" = true
          then [cartesianWarning] else []) ++
        (if hasVarLengthPattern q = true ∧ ¬strContainsUpper q "WHERE" = true
          then [varLengthWarning] else [])).all (fun e => ¬strStartsWith e "ERROR:") = true := by
    rw [List.all_append, Bool.and_eq_true]
    constructor
    · split
      · decide
      · decide
    · split
      · decide
      · decide
  have hcountW : ((if countUpperOccurrences q "MATCH" > 1 ∧ ¬strContainsUpper q "WHERE" = true
          then [cartesianWarning] else []) ++
        (if hasVarLengthPattern q = true ∧ ¬strContainsUpper q "WHERE" = true
          then [varLengthWarning] else [])).count missingLimitWarning = 0 := by
    rw [List.count_append]
    have h1 : (if countUpperOccurrences q "MATCH" > 1 ∧ ¬strContainsUpper q "WHERE" = true
        then [cartesianWarning] else []).count missingLimitWarning = 0 := by
      split
      · decide
      · decide
    have h2 : (if hasVarLengthPattern q = true ∧ ¬strContainsUpper q "WHERE" = true
        then [varLengthWarning] else []).count missingLimitWarning = 0 := by
      split
      · decide
      · decide
    rw [h1, h2]
  constructor
  · rw [hval]
    dsimp only
    rw [List.all_cons, hallW]
    decide
  · rw [hval]
    dsimp only
    rw [List.count_cons, hcountW]
    decide

/-- Counterexample to C5 as stated: "RETURN 1" is a syntactically valid read
query (the modelled syntax check accepts it and it contains no destructive
keyword) with no LIMIT and no COUNT, yet the validator returns no diagnostics
at all — zero MissingLimit warnings rather than exactly one (the warning is
only emitted for queries containing MATCH). -/
theorem validator_missing_limit_counterexample_C5 :
    (∀ kw ∈ destructiveKeywords, strContainsUpper "RETURN 1" kw = false)
    ∧ strContainsUpper "RETURN 1" "LIMIT" = false
    ∧ strContainsUpper "RETURN 1" "COUNT" = false
    ∧ validateQuery (fun _ => (true, none)) ⟨["Drug"], ["TARGETS"]⟩ "RETURN 1" =
        (true, [])
    ∧ (validateQuery (fun _ => (true, none)) ⟨["Drug"], ["TARGETS"]⟩
        "RETURN 1").2.count missingLimitWarning ≠ 1 := by decide

/-- Witness for C5 (amended) at an explicit schema-conforming MATCH query. -/
theorem validator_missing_limit_amended_C5_witness :
    (validateQuery (fun _ => (true, none)) ⟨["Drug"], []⟩
        "MATCH (d:Drug) RETURN d").1 = true
    ∧ (validateQuery (fun _ => (true, none)) ⟨["Drug"], []⟩
        "MATCH (d:Drug) RETURN d").2.count missingLimitWarning = 1 :=
  validator_missing_limit_amended_C5 (fun _ => (true, none)) ⟨["Drug"], []⟩
    "MATCH (d:Drug) RETURN d" none rfl (by decide) (by decide) (by decide)
    (by decide) (by decide) (by decide)


/-- An ERROR-tagged diagnostic in the validator output forces
`is_valid = false`. -/
theorem validateQuery_error_diag (syntaxCheck : SyntaxCheck) (schema : Schema)
    (cy : String) (d : String)
    (hd : d ∈ (validateQuery syntaxCheck schema cy).2)
    (herr : strStartsWith d "ERROR:" = true) :
    (validateQuery syntaxCheck schema cy).1 = false := by
  rw [validateQuery] at hd ⊢
  rcases hsc : syntaxCheck cy with ⟨b, o⟩
  rw [hsc] at hd
  cases b
  · simp
  · dsimp only at hd ⊢
    simp only [Bool.not_true, decide_False] at hd ⊢
    rcases hcs : checkSecurity cy with ⟨cv, cerrs⟩
    rw [hcs] at hd
    cases cv
    · simp
    · dsimp only at hd ⊢
      simp only [Bool.not_true, decide_False] at hd ⊢
      cases hall : ((if ¬(validateSchemaEntities schema cy).1 = true then
            (validateSchemaEntities schema cy).2 else []) ++
          checkPerformance cy).all (fun e => ¬strStartsWith e "ERROR:")
      · rfl
      · have := List.all_eq_true.mp hall d ?_
        · rw [herr] at this
          exact absurd this (by decide)
        · exact hd

/-- The agent loop never sets a query type. -/
theorem agentAttemptLoop_queryType_none (attempt : Nat → Except String ChainSuccess)
    (question : String) (r : Bool) (m : Nat) :
    ∀ fuel k, m - k ≤ fuel →
    (agentAttemptLoop attempt question r m k).queryType = none := by
  intro fuel
  induction fuel with
  | zero =>
    intro k hk
    rw [agentAttemptLoop]
    cases attempt k with
    | ok d => rfl
    | error e =>
      dsimp only
      rw [if_neg (by intro hcon; omega)]
  | succ n ih =>
    intro k hk
    rw [agentAttemptLoop]
    cases attempt k with
    | ok d => rfl
    | error e =>
      dsimp only
      by_cases hc : (k < m - 1 ∧ r = true)
      · rw [if_pos hc]
        exact ih (k + 1) (by omega)
      · rw [if_neg hc]

/-- The agent result carries no query type (the router adds it later). -/
theorem agentQuery_queryType_none (attempt : Nat → Except String ChainSuccess)
    (n : Nat) (question : String) (r : Bool) :
    (agentQuery attempt n question r).queryType = none := by
  rw [agentQuery]
  split <;> split
  all_goals first
    | rfl
    | exact agentAttemptLoop_queryType_none attempt question r _ _ 0 le_rfl

/-- The generative path's result is never labelled as a template result. -/
theorem execText2cypher_queryType (env : RouterEnv) (question intent : String) :
    (execText2cypher env question intent).queryType ≠ some "template" := by
  rw [execText2cypher]
  split
  · intro hcon
    rw [Option.some.injEq] at hcon
    exact absurd hcon (by decide)
  · rw [agentQuery_queryType_none]
    intro hcon
    exact absurd hcon (by simp)

/-- The template path reports failure whenever parameter extraction returns
nothing (or an empty map), the formatted query draws an ERROR-severity
diagnostic, or execution raises. -/
theorem execTemplate_not_success (env : RouterEnv) (q : String) (t : QueryTemplate)
    (hfail :
      (env.extractParams q t.parameters = none ∨
        env.extractParams q t.parameters = some [])
      ∨ (∃ ps cypher, env.extractParams q t.parameters = some ps ∧
          formatTemplate t ps = .ok cypher ∧
          ∃ d ∈ (validateQuery env.syntaxCheck env.schema cypher).2,
            strStartsWith d "ERROR:" = true)
      ∨ (∃ ps cypher e, env.extractParams q t.parameters = some ps ∧
          formatTemplate t ps = .ok cypher ∧
          (validateQuery env.syntaxCheck env.schema cypher).1 = true ∧
          env.executeQuery cypher ps = .error e)) :
    (execTemplate env q t).success = false := by
  rcases hfail with (hnone | hempty) | ⟨ps, cypher, hex, hfmt, d, hd, herr⟩ |
      ⟨ps, cypher, e, hex, hfmt, hvalid, hexec⟩
  · rw [execTemplate, hnone]
  · rw [execTemplate, hempty]
    dsimp only
    rw [if_pos rfl]
  · rw [execTemplate, hex]
    dsimp only
    by_cases hps : ps = []
    · rw [if_pos hps]
    · rw [if_neg hps, hfmt]
      dsimp only
      have hinvalid := validateQuery_error_diag env.syntaxCheck env.schema cypher d hd herr
      rcases hv : validateQuery env.syntaxCheck env.schema cypher with ⟨b, errs⟩
      rw [hv] at hinvalid
      dsimp only at hinvalid
      subst hinvalid
      dsimp only
      rw [if_pos (by simp)]
  · rw [execTemplate, hex]
    dsimp only
    by_cases hps : ps = []
    · rw [if_pos hps]
    · rw [if_neg hps, hfmt]
      dsimp only
      rcases hv : validateQuery env.syntaxCheck env.schema cypher with ⟨b, errs⟩
      rw [hv] at hvalid
      dsimp only at hvalid
      subst hvalid
      dsimp only
      rw [if_neg (by simp), hexec]

/-- Claim C1: whenever the template path is attempted (the match list is
non-empty) and fails — parameter extraction returns nothing, the formatted
query has an ERROR-severity diagnostic, or execution raises — the Router's
query operation still invokes the generative path and returns its result, and
the template failure is never the result surfaced to the caller. -/
theorem router_template_fallback_claim_C1 (env : RouterEnv) (q : String)
    (t : QueryTemplate) (ts : List QueryTemplate)
    (hmatch : classifierFindMatching env.libraries q (some (env.classify q)) = t :: ts)
    (hfail :
      (env.extractParams q t.parameters = none ∨
        env.extractParams q t.parameters = some [])
      ∨ (∃ ps cypher, env.extractParams q t.parameters = some ps ∧
          formatTemplate t ps = .ok cypher ∧
          ∃ d ∈ (validateQuery env.syntaxCheck env.schema cypher).2,
            strStartsWith d "ERROR:" = true)
      ∨ (∃ ps cypher e, env.extractParams q t.parameters = some ps ∧
          formatTemplate t ps = .ok cypher ∧
          (validateQuery env.syntaxCheck env.schema cypher).1 = true ∧
          env.executeQuery cypher ps = .error e)) :
    routerQuery env q false = execText2cypher env q (env.classify q)
    ∧ (routerQuery env q false).queryType ≠ some "template" := by
  have hrq : routerQuery env q false = execText2cypher env q (env.classify q) := by
    rw [routerQuery]
    dsimp only
    rw [hmatch]
    dsimp only
    rw [execTemplate_not_success env q t hfail]
    simp
  exact ⟨hrq, by rw [hrq]; exact execText2cypher_queryType env q (env.classify q)⟩

/-- Witness for C1: in a concrete environment where parameter extraction
always fails, a question matching the first drug-repurposing template still
produces the generative path's result. -/
theorem router_template_fallback_claim_C1_witness :
    routerQuery sampleRouterEnv "find similar drugs to Imatinib" false =
      execText2cypher sampleRouterEnv "find similar drugs to Imatinib"
        "drug_repurposing" :=
  (router_template_fallback_claim_C1 sampleRouterEnv
    "find similar drugs to Imatinib" similar_drugs_by_targetTemplate []
    (by decide) (Or.inl (Or.inl rfl))).1

end T2C
